import Mathlib

/-!
Shallow embedding of `src/rust-sdk/src/error.rs` (the SDK error taxonomy of the
matrix crypto wrapper crate) together with a spec-modelled session engine for
the encrypt/decrypt round-trip property.  The four public error enumerations
are transcribed variant-for-variant from the source; the collaborator error
types they wrap (`RumaIdentifierError`, `InnerStoreError`, `KeyExportError`,
`OlmError`, `serde_json::Error`, `MegolmError`) come from external crates and
are modelled as opaque displayable payloads.
-/

/-- Opaque stand-in for `matrix_sdk_common::identifiers::Error`
(`RumaIdentifierError` in the source): an identifier-parsing error from the
external library, carrying only its rendered message. -/
structure RumaIdentifierError where
  msg : String
deriving DecidableEq

/-- Opaque stand-in for `matrix_sdk_crypto::store::CryptoStoreError`
(`InnerStoreError` in the source): an underlying crypto-store fault from the
external library. -/
structure InnerStoreError where
  msg : String
deriving DecidableEq

/-- Opaque stand-in for `matrix_sdk_crypto::KeyExportError`: an export-blob
passphrase/format fault from the external library. -/
structure KeyExportError where
  msg : String
deriving DecidableEq

/-- Opaque stand-in for `matrix_sdk_crypto::OlmError`: an Olm session fault
from the external library. -/
structure OlmLibraryError where
  msg : String
deriving DecidableEq

/-- Opaque stand-in for `serde_json::Error`: a serialization fault from the
external library. -/
structure SerdeJsonError where
  msg : String
deriving DecidableEq

/-- Modelled from the spec: `matrix_sdk_crypto::MegolmError`, the external
ratchet/session fault type wrapped by `DecryptionError::Megolm`; its
definition is not in the provided source, so its causes are taken from the
spec's taxonomy for decryption ratchet/session faults: `UnknownSession`,
`Replay`, and `Mac` authentication failure, each carrying its rendered
message. -/
inductive MegolmError where
  | UnknownSession (msg : String)
  | Replay (msg : String)
  | Mac (msg : String)
deriving DecidableEq

/-- Display rendering of the modelled `MegolmError`. -/
def MegolmError.display : MegolmError → String
  | .UnknownSession m => m
  | .Replay m => m
  | .Mac m => m

/-- Display rendering of the opaque identifier error. -/
def RumaIdentifierError.display (e : RumaIdentifierError) : String := e.msg

/-- Display rendering of the opaque inner store error. -/
def InnerStoreError.display (e : InnerStoreError) : String := e.msg

/-- Display rendering of the opaque key-export error. -/
def KeyExportError.display (e : KeyExportError) : String := e.msg

/-- Display rendering of the opaque Olm error. -/
def OlmLibraryError.display (e : OlmLibraryError) : String := e.msg

/-- Display rendering of the opaque serde_json error. -/
def SerdeJsonError.display (e : SerdeJsonError) : String := e.msg

/-- Embedding of `pub enum MachineCreationError` from the source: two
variants, `Identifier(RumaIdentifierError)` and
`CryptoStore(InnerStoreError)`, both `#[error(transparent)]` with
`#[from]`. -/
inductive MachineCreationError where
  | Identifier (e : RumaIdentifierError)
  | CryptoStore (e : InnerStoreError)
deriving DecidableEq

/-- Embedding of `pub enum KeyImportError` from the source: two variants,
`Export(KeyExportError)` and `CryptoStore(InnerStoreError)`, both
`#[error(transparent)]` with `#[from]`. -/
inductive KeyImportError where
  | Export (e : KeyExportError)
  | CryptoStore (e : InnerStoreError)
deriving DecidableEq

/-- Embedding of `pub enum CryptoStoreError` from the source: four variants,
`CryptoStore(InnerStoreError)`, `OlmError(OlmError)`,
`Serialization(serde_json::Error)` and `Identifier(RumaIdentifierError)`, all
`#[error(transparent)]` with `#[from]`. -/
inductive CryptoStoreError where
  | CryptoStore (e : InnerStoreError)
  | OlmError (e : OlmLibraryError)
  | Serialization (e : SerdeJsonError)
  | Identifier (e : RumaIdentifierError)
deriving DecidableEq

/-- Embedding of `pub enum DecryptionError` from the source: three variants,
`Serialization(serde_json::Error)`, `Identifier(RumaIdentifierError)` and
`Megolm(MegolmError)`, all `#[error(transparent)]` with `#[from]`. -/
inductive DecryptionError where
  | Serialization (e : SerdeJsonError)
  | Identifier (e : RumaIdentifierError)
  | Megolm (e : MegolmError)
deriving DecidableEq

/-- The `From<RumaIdentifierError>` conversion derived by `#[from]` on
`MachineCreationError::Identifier`. -/
def MachineCreationError.fromRumaIdentifierError (e : RumaIdentifierError) :
    MachineCreationError := .Identifier e

/-- The `From<InnerStoreError>` conversion derived by `#[from]` on
`MachineCreationError::CryptoStore`. -/
def MachineCreationError.fromInnerStoreError (e : InnerStoreError) :
    MachineCreationError := .CryptoStore e

/-- The `From<KeyExportError>` conversion derived by `#[from]` on
`KeyImportError::Export`. -/
def KeyImportError.fromKeyExportError (e : KeyExportError) :
    KeyImportError := .Export e

/-- The `From<InnerStoreError>` conversion derived by `#[from]` on
`KeyImportError::CryptoStore`. -/
def KeyImportError.fromInnerStoreError (e : InnerStoreError) :
    KeyImportError := .CryptoStore e

/-- The `From<InnerStoreError>` conversion derived by `#[from]` on
`CryptoStoreError::CryptoStore`. -/
def CryptoStoreError.fromInnerStoreError (e : InnerStoreError) :
    CryptoStoreError := .CryptoStore e

/-- The `From<OlmError>` conversion derived by `#[from]` on
`CryptoStoreError::OlmError`. -/
def CryptoStoreError.fromOlmError (e : OlmLibraryError) :
    CryptoStoreError := .OlmError e

/-- The `From<serde_json::Error>` conversion derived by `#[from]` on
`CryptoStoreError::Serialization`. -/
def CryptoStoreError.fromSerdeJsonError (e : SerdeJsonError) :
    CryptoStoreError := .Serialization e

/-- The `From<RumaIdentifierError>` conversion derived by `#[from]` on
`CryptoStoreError::Identifier`. -/
def CryptoStoreError.fromRumaIdentifierError (e : RumaIdentifierError) :
    CryptoStoreError := .Identifier e

/-- The `From<serde_json::Error>` conversion derived by `#[from]` on
`DecryptionError::Serialization`. -/
def DecryptionError.fromSerdeJsonError (e : SerdeJsonError) :
    DecryptionError := .Serialization e

/-- The `From<RumaIdentifierError>` conversion derived by `#[from]` on
`DecryptionError::Identifier`. -/
def DecryptionError.fromRumaIdentifierError (e : RumaIdentifierError) :
    DecryptionError := .Identifier e

/-- The `From<MegolmError>` conversion derived by `#[from]` on
`DecryptionError::Megolm`. -/
def DecryptionError.fromMegolmError (e : MegolmError) :
    DecryptionError := .Megolm e

/-- Display rendering of `MachineCreationError`; `#[error(transparent)]` on
every variant means it delegates to the wrapped error's own rendering. -/
def MachineCreationError.display : MachineCreationError → String
  | .Identifier e => e.display
  | .CryptoStore e => e.display

/-- Display rendering of `KeyImportError`; transparent delegation per
variant. -/
def KeyImportError.display : KeyImportError → String
  | .Export e => e.display
  | .CryptoStore e => e.display

/-- Display rendering of `CryptoStoreError`; transparent delegation per
variant. -/
def CryptoStoreError.display : CryptoStoreError → String
  | .CryptoStore e => e.display
  | .OlmError e => e.display
  | .Serialization e => e.display
  | .Identifier e => e.display

/-- Display rendering of `DecryptionError`; transparent delegation per
variant. -/
def DecryptionError.display : DecryptionError → String
  | .Serialization e => e.display
  | .Identifier e => e.display
  | .Megolm e => e.display

/-- Tags for the collaborator error types that appear as `#[from]` sources in
the module, used to record which automatic conversions each SDK error kind
offers. -/
inductive ExtErrorTy where
  | rumaIdentifier
  | innerStore
  | keyExport
  | olm
  | serdeJson
  | megolm
deriving DecidableEq

/-- The `#[from]` source types of `MachineCreationError`, in source order. -/
def machineCreationFromSources : List ExtErrorTy :=
  [.rumaIdentifier, .innerStore]

/-- The `#[from]` source types of `KeyImportError`, in source order. -/
def keyImportFromSources : List ExtErrorTy :=
  [.keyExport, .innerStore]

/-- The `#[from]` source types of `CryptoStoreError`, in source order. -/
def cryptoStoreFromSources : List ExtErrorTy :=
  [.innerStore, .olm, .serdeJson, .rumaIdentifier]

/-- The `#[from]` source types of `DecryptionError`, in source order. -/
def decryptionFromSources : List ExtErrorTy :=
  [.serdeJson, .rumaIdentifier, .megolm]

/-- Modelled from the spec: the error surface exposed to callers (spec §6) is
the sum of the four public error kinds of the module; no operation result
carries any other error type. -/
inductive SdkError where
  | machineCreation (e : MachineCreationError)
  | keyImport (e : KeyImportError)
  | cryptoStore (e : CryptoStoreError)
  | decryption (e : DecryptionError)

/-- Predicate written from the SPEC's words (§7), for comparison with the
source enumeration: a `CryptoStoreError` value falls under one of the three
causes the spec lists — underlying storage fault (`CryptoStore`
variant), serialization failure (`Serialization` variant), or malformed
identifier (`Identifier` variant).  The source's `OlmError` variant is a
session fault, which is none of the three. -/
def cryptoStoreErrorSpecListedCause : CryptoStoreError → Bool
  | .CryptoStore _ => true
  | .Serialization _ => true
  | .Identifier _ => true
  | .OlmError _ => false

/-- The top-level variant tag of a `DecryptionError`, what a caller matching
on the `DecryptionError` enum itself can observe. -/
inductive DecryptionErrorTag where
  | serializationTag
  | identifierTag
  | megolmTag
deriving DecidableEq

/-- Top-level tag of a `DecryptionError` value. -/
def DecryptionError.tag : DecryptionError → DecryptionErrorTag
  | .Serialization _ => .serializationTag
  | .Identifier _ => .identifierTag
  | .Megolm _ => .megolmTag

/-- Whether a `DecryptionError` value represents a symmetric-decryption
authentication (MAC) failure: in the source this is a `Megolm` variant whose
inner ratchet fault is the MAC cause. -/
def DecryptionError.isMacFailure : DecryptionError → Bool
  | .Megolm (.Mac _) => true
  | _ => false

/-- Modelled from the spec: room identifiers are validated string-backed
handles (spec §3); the engine below treats them as already-validated
strings. -/
abbrev Room := String

/-- Modelled from the spec: a plaintext message body, as a sequence of
bytes/units. -/
abbrev Plaintext := List Nat

/-- Modelled from the spec: the black-box AEAD capability's ciphertext blob,
an authenticated body plus its authentication tag. -/
structure AeadBlob where
  tag : Nat
  body : List Nat
deriving DecidableEq

/-- Modelled from the spec: the authentication tag of the black-box AEAD
capability, keyed by the message key. -/
def macTag (k : Nat) (p : List Nat) : Nat :=
  p.foldl (fun a x => a * 31 + x) (k + 7)

/-- Modelled from the spec: black-box AEAD encryption under message key
`k`. -/
def aeadEncrypt (k : Nat) (p : Plaintext) : AeadBlob :=
  ⟨macTag k p, p.map (fun x => x + k)⟩

/-- Modelled from the spec: black-box AEAD decryption under message key `k`;
returns `none` on authentication failure. -/
def aeadDecrypt (k : Nat) (c : AeadBlob) : Option Plaintext :=
  let p := c.body.map (fun x => x - k)
  if macTag k p = c.tag ∧ p.map (fun x => x + k) = c.body then some p else none

/-- Modelled from the spec: one irreversible step of the ratchet
key-derivation chain. -/
def ratchetStep (k : Nat) : Nat := 2 * k + 1

/-- Modelled from the spec: the message key at index `i` of a chain starting
from chain key `ck` — the chain advanced `i` steps. -/
def chainKeyAt (ck : Nat) : Nat → Nat
  | 0 => ck
  | n + 1 => ratchetStep (chainKeyAt ck n)

/-- Modelled from the spec: rotation policy's configured maximum message
count per outbound group session (spec example value 100). -/
def maxMessages : Nat := 100

/-- Modelled from the spec: an outbound group session — session id, current
chain key origin, and message index (spec §3). -/
structure OutboundGroupSession where
  sessionId : Nat
  chainKey : Nat
  messageIndex : Nat
deriving DecidableEq

/-- Modelled from the spec: an inbound group session's ratchet state plus the
set of message indices already consumed (replay protection, spec §3). -/
structure InboundGroupSession where
  chainKey : Nat
  recorded : List Nat
deriving DecidableEq

/-- Modelled from the spec: a group-message ciphertext envelope — room,
session id, message index, and AEAD payload (spec §4.3). -/
structure Ciphertext where
  room : Room
  sessionId : Nat
  index : Nat
  payload : AeadBlob
deriving DecidableEq

/-- Modelled from the spec: the Machine's crypto-store view needed by the
Session Engine — outbound sessions per room, inbound sessions per
(room, session id), and counters supplying fresh session ids and key
material.  Association lists are cons-shadowed: the most recent binding for a
key wins. -/
structure MachineState where
  outbound : List (Room × OutboundGroupSession)
  inbound : List ((Room × Nat) × InboundGroupSession)
  nextSessionId : Nat
  nextKeySeed : Nat

/-- First-match association-list lookup. -/
def assocFind {α β : Type} [DecidableEq α] : List (α × β) → α → Option β
  | [], _ => none
  | (a, b) :: t, x => if a = x then some b else assocFind t x

/-- Modelled from the spec: an outbound session is valid for further
encryption while its message count is under the configured limit. -/
def sessionValid (os : OutboundGroupSession) : Bool :=
  decide (os.messageIndex < maxMessages)

/-- Modelled from the spec: the fresh outbound session the engine creates
when no valid one exists for a room. -/
def freshSession (s : MachineState) : OutboundGroupSession :=
  ⟨s.nextSessionId, s.nextKeySeed, 0⟩

/-- Modelled from the spec: session creation — store the fresh outbound
session for the room and distribute its key, here recorded as the matching
inbound session (room, session id) with the same chain key and an empty
replay record (spec §4.3's key distribution via the Key Exchange
Coordinator). -/
def createSession (s : MachineState) (r : Room) : MachineState :=
  { outbound := (r, freshSession s) :: s.outbound
    inbound := ((r, (freshSession s).sessionId),
                ⟨(freshSession s).chainKey, []⟩) :: s.inbound
    nextSessionId := s.nextSessionId + 1
    nextKeySeed := s.nextKeySeed + 1 }

/-- Modelled from the spec: encrypt with a given outbound session — derive
the message key at the current index, AEAD-encrypt, then advance the ratchet
by one step (message index += 1). -/
def encryptWith (s : MachineState) (r : Room) (os : OutboundGroupSession)
    (p : Plaintext) : Ciphertext × MachineState :=
  (⟨r, os.sessionId, os.messageIndex,
    aeadEncrypt (chainKeyAt os.chainKey os.messageIndex) p⟩,
   { s with outbound :=
      (r, { os with messageIndex := os.messageIndex + 1 }) :: s.outbound })

/-- Modelled from the spec: `encrypt(room, plaintext)` of the Session Engine
(spec §4.3) — if no valid (under-limit) outbound group session exists for the
room, create one (distributing its key), then encrypt with the current chain
key and advance the ratchet. -/
def encrypt (s : MachineState) (r : Room) (p : Plaintext) :
    Ciphertext × MachineState :=
  match assocFind s.outbound r with
  | some os =>
    if sessionValid os then encryptWith s r os p
    else encryptWith (createSession s r) r (freshSession s) p
  | none => encryptWith (createSession s r) r (freshSession s) p

/-- Modelled from the spec: the ratchet/session fault causes of a decrypt
operation (spec §4.3/§7): unknown session, replayed message index, MAC
authentication failure. -/
inductive SessionDecryptFault where
  | unknownSession
  | replay
  | mac
deriving DecidableEq

/-- Modelled from the spec: `decrypt` of the Session Engine (spec §4.3) —
look up the inbound group session by (room, session id); fail with
`unknownSession` if absent; fail with `replay` if the message index was
already consumed; otherwise derive the message key at the index and
AEAD-decrypt, failing with `mac` on authentication failure and recording the
index on success. -/
def decrypt (s : MachineState) (c : Ciphertext) :
    Except SessionDecryptFault (Plaintext × MachineState) :=
  match assocFind s.inbound (c.room, c.sessionId) with
  | none => .error .unknownSession
  | some is =>
    if c.index ∈ is.recorded then .error .replay
    else
      match aeadDecrypt (chainKeyAt is.chainKey c.index) c.payload with
      | none => .error .mac
      | some p =>
        .ok (p, { s with inbound :=
          ((c.room, c.sessionId),
           { is with recorded := c.index :: is.recorded }) :: s.inbound })

/-- Plaintext produced by a decrypt result, ignoring the updated state. -/
def decOutput : Except SessionDecryptFault (Plaintext × MachineState) →
    Option Plaintext
  | .ok (p, _) => some p
  | .error _ => none

/-- Well-formedness of one stored outbound entry: the matching inbound
session exists (the distributed key), shares the chain key, and has consumed
only indices below the outbound message index. -/
def wfEntry (s : MachineState) (e : Room × OutboundGroupSession) : Bool :=
  match assocFind s.inbound (e.1, e.2.sessionId) with
  | none => false
  | some is =>
    is.chainKey == e.2.chainKey &&
      is.recorded.all (fun i => decide (i < e.2.messageIndex))

/-- Well-formedness of a machine state: every stored outbound session has its
distributed inbound counterpart in sync (same session epoch). -/
def wfState (s : MachineState) : Bool :=
  s.outbound.all (wfEntry s)

/-- Initial machine state: empty store, zeroed counters. -/
def initialMachineState : MachineState := ⟨[], [], 0, 0⟩

/-- Sample room identifier used by concrete witnesses. -/
def sampleRoom : Room := "!room:example.org"

theorem map_add_sub_cancel (k : Nat) (p : List Nat) :
    (p.map (fun x => x + k)).map (fun x => x - k) = p := by
  induction p with
  | nil => rfl
  | cons a t ih => simp [List.map, ih, Nat.add_sub_cancel]

theorem aead_roundtrip (k : Nat) (p : Plaintext) :
    aeadDecrypt k (aeadEncrypt k p) = some p := by
  unfold aeadDecrypt aeadEncrypt
  simp only [map_add_sub_cancel]
  simp

theorem assocFind_mem {α β : Type} [DecidableEq α] {l : List (α × β)} {x : α}
    {b : β} (h : assocFind l x = some b) : (x, b) ∈ l := by
  induction l with
  | nil => simp [assocFind] at h
  | cons e t ih =>
    obtain ⟨a, c⟩ := e
    by_cases hx : a = x
    · subst hx
      simp [assocFind] at h
      subst h
      exact List.mem_cons_self _ _
    · simp [assocFind, hx] at h
      exact List.mem_cons_of_mem _ (ih h)

theorem wf_lookup {s : MachineState} {r : Room} {os : OutboundGroupSession}
    (h : wfState s = true) (hf : assocFind s.outbound r = some os) :
    ∃ is, assocFind s.inbound (r, os.sessionId) = some is ∧
      is.chainKey = os.chainKey ∧ ∀ i ∈ is.recorded, i < os.messageIndex := by
  have hmem : (r, os) ∈ s.outbound := assocFind_mem hf
  have hall := (List.all_eq_true.mp h) _ hmem
  unfold wfEntry at hall
  cases hin : assocFind s.inbound (r, os.sessionId) with
  | none => rw [hin] at hall; simp at hall
  | some is =>
    rw [hin] at hall
    simp only [Bool.and_eq_true, beq_iff_eq, List.all_eq_true,
      decide_eq_true_eq] at hall
    exact ⟨is, rfl, hall.1, hall.2⟩

theorem decrypt_encryptWith_fresh (s : MachineState) (r : Room)
    (p : Plaintext) :
    decOutput (decrypt
      (encryptWith (createSession s r) r (freshSession s) p).2
      (encryptWith (createSession s r) r (freshSession s) p).1) = some p := by
  simp [createSession, encryptWith, freshSession, decrypt, assocFind,
    decOutput, aead_roundtrip]

/-- Claim C7 (spec-modelled Session Engine): for every valid plaintext P and room R, decrypting the result of
encrypt(R, P) within the same session epoch (a well-formed state, and no
intervening rotation) returns P — the encrypt/decrypt round-trip of the
Session Engine. -/
theorem session_encrypt_decrypt_roundtrip (s : MachineState) (r : Room)
    (p : Plaintext) (h : wfState s = true) :
    decOutput (decrypt (encrypt s r p).2 (encrypt s r p).1) = some p := by
  unfold encrypt
  cases hf : assocFind s.outbound r with
  | none => exact decrypt_encryptWith_fresh s r p
  | some os =>
    dsimp only
    by_cases hv : sessionValid os = true
    · rw [if_pos hv]
      obtain ⟨is, hin, hck, hrec⟩ := wf_lookup h hf
      have hnot : os.messageIndex ∉ is.recorded := fun hm =>
        absurd (hrec _ hm) (Nat.lt_irrefl _)
      simp [encryptWith, decrypt, decOutput, hin, hck, hnot, aead_roundtrip]
    · rw [if_neg hv]
      exact decrypt_encryptWith_fresh s r p

/-- Witness for C7: the round-trip theorem applied at the initial machine
state, a concrete room and a concrete plaintext. -/
theorem session_roundtrip_witness :
    wfState initialMachineState = true ∧
    decOutput (decrypt
      (encrypt initialMachineState sampleRoom [1, 2, 3]).2
      (encrypt initialMachineState sampleRoom [1, 2, 3]).1) = some [1, 2, 3] :=
  ⟨rfl, session_encrypt_decrypt_roundtrip initialMachineState sampleRoom
    [1, 2, 3] rfl⟩

/-- Sample Olm session fault used by concrete counterexamples. -/
def sampleOlmFault : OlmLibraryError := { msg := "olm session failure" }

/-- Message of the sample MAC authentication failure. -/
def tamperMsg : String := "mac authentication failed"

/-- Message of the sample replayed-index fault. -/
def replayMsg : String := "message index already consumed"

/-- Sample MAC authentication failure used by concrete witnesses. -/
def sampleMacFault : MegolmError := MegolmError.Mac tamperMsg

/-- Claim C1: the error surface exposed to callers consists of exactly the
four error kinds, and each kind is a closed (exhaustive) set of causes —
every value of each enumeration is one of that enumeration's listed
variants. -/
theorem error_surface_four_closed_kinds :
    (∀ err : SdkError,
      (∃ e, err = SdkError.machineCreation e) ∨
      (∃ e, err = SdkError.keyImport e) ∨
      (∃ e, err = SdkError.cryptoStore e) ∨
      (∃ e, err = SdkError.decryption e)) ∧
    (∀ e : MachineCreationError,
      (∃ x, e = MachineCreationError.Identifier x) ∨
      (∃ x, e = MachineCreationError.CryptoStore x)) ∧
    (∀ e : KeyImportError,
      (∃ x, e = KeyImportError.Export x) ∨
      (∃ x, e = KeyImportError.CryptoStore x)) ∧
    (∀ e : CryptoStoreError,
      (∃ x, e = CryptoStoreError.CryptoStore x) ∨
      (∃ x, e = CryptoStoreError.OlmError x) ∨
      (∃ x, e = CryptoStoreError.Serialization x) ∨
      (∃ x, e = CryptoStoreError.Identifier x)) ∧
    (∀ e : DecryptionError,
      (∃ x, e = DecryptionError.Serialization x) ∨
      (∃ x, e = DecryptionError.Identifier x) ∨
      (∃ x, e = DecryptionError.Megolm x)) := by
  refine ⟨?_, ?_, ?_, ?_, ?_⟩
  · intro err
    cases err with
    | machineCreation e => exact Or.inl ⟨e, rfl⟩
    | keyImport e => exact Or.inr (Or.inl ⟨e, rfl⟩)
    | cryptoStore e => exact Or.inr (Or.inr (Or.inl ⟨e, rfl⟩))
    | decryption e => exact Or.inr (Or.inr (Or.inr ⟨e, rfl⟩))
  · intro e
    cases e with
    | Identifier x => exact Or.inl ⟨x, rfl⟩
    | CryptoStore x => exact Or.inr ⟨x, rfl⟩
  · intro e
    cases e with
    | Export x => exact Or.inl ⟨x, rfl⟩
    | CryptoStore x => exact Or.inr ⟨x, rfl⟩
  · intro e
    cases e with
    | CryptoStore x => exact Or.inl ⟨x, rfl⟩
    | OlmError x => exact Or.inr (Or.inl ⟨x, rfl⟩)
    | Serialization x => exact Or.inr (Or.inr (Or.inl ⟨x, rfl⟩))
    | Identifier x => exact Or.inr (Or.inr (Or.inr ⟨x, rfl⟩))
  · intro e
    cases e with
    | Serialization x => exact Or.inl ⟨x, rfl⟩
    | Identifier x => exact Or.inr (Or.inl ⟨x, rfl⟩)
    | Megolm x => exact Or.inr (Or.inr ⟨x, rfl⟩)

/-- Counterexample to claim C2 as stated: the source's
`CryptoStoreError::OlmError` variant (an Olm session fault) is a fourth
cause, outside the three causes §7 lists. -/
theorem cryptoStoreError_three_causes_cex :
    ¬ ∀ e : CryptoStoreError, cryptoStoreErrorSpecListedCause e = true := by
  intro h
  have hx := h (CryptoStoreError.OlmError sampleOlmFault)
  simp [cryptoStoreErrorSpecListedCause] at hx

/-- Claim C2 (amended): the closed set of causes of `CryptoStoreError` is
exactly four — underlying storage fault, Olm session fault, serialization
failure, and malformed identifier; every `CryptoStoreError` value is one of
these four variants and no other. -/
theorem cryptoStoreError_four_causes :
    ∀ e : CryptoStoreError,
      (∃ x, e = CryptoStoreError.CryptoStore x) ∨
      (∃ x, e = CryptoStoreError.OlmError x) ∨
      (∃ x, e = CryptoStoreError.Serialization x) ∨
      (∃ x, e = CryptoStoreError.Identifier x) := by
  intro e
  cases e with
  | CryptoStore x => exact Or.inl ⟨x, rfl⟩
  | OlmError x => exact Or.inr (Or.inl ⟨x, rfl⟩)
  | Serialization x => exact Or.inr (Or.inr (Or.inl ⟨x, rfl⟩))
  | Identifier x => exact Or.inr (Or.inr (Or.inr ⟨x, rfl⟩))

/-- Counterexample to claim C3 as stated: no top-level variant of
`DecryptionError` is dedicated to MAC authentication failures — the only tag
covering a MAC failure is the `Megolm` tag, which also covers `Replay`, so
there is no dedicated `DecryptionError::Mac` variant. -/
theorem decryptionError_dedicated_mac_variant_cex :
    ¬ ∃ t : DecryptionErrorTag, ∀ e : DecryptionError,
      DecryptionError.tag e = t ↔ DecryptionError.isMacFailure e = true := by
  rintro ⟨t, h⟩
  cases t with
  | serializationTag =>
    have hx := (h (DecryptionError.Megolm sampleMacFault)).mpr rfl
    simp [DecryptionError.tag] at hx
  | identifierTag =>
    have hx := (h (DecryptionError.Megolm sampleMacFault)).mpr rfl
    simp [DecryptionError.tag] at hx
  | megolmTag =>
    have hx := (h (DecryptionError.Megolm (MegolmError.Replay replayMsg))).mp
      rfl
    simp [DecryptionError.isMacFailure] at hx

/-- Claim C3 (amended): every symmetric-decryption authentication failure is
surfaced under the `Megolm` variant of `DecryptionError` carrying the `Mac`
cause — never as the generic `Serialization` or `Identifier` variant — so a
caller distinguishes tampering from transport corruption by matching through
`Megolm` into the inner ratchet fault; `DecryptionError` has no dedicated
top-level `Mac` variant. -/
theorem decryptionError_mac_surfaced_as_megolm (e : DecryptionError)
    (h : DecryptionError.isMacFailure e = true) :
    (∃ m, e = DecryptionError.Megolm m ∧ ∃ msg, m = MegolmError.Mac msg) ∧
    DecryptionError.tag e ≠ DecryptionErrorTag.serializationTag ∧
    DecryptionError.tag e ≠ DecryptionErrorTag.identifierTag := by
  cases e with
  | Serialization x => simp [DecryptionError.isMacFailure] at h
  | Identifier x => simp [DecryptionError.isMacFailure] at h
  | Megolm m =>
    cases m with
    | UnknownSession msg => simp [DecryptionError.isMacFailure] at h
    | Replay msg => simp [DecryptionError.isMacFailure] at h
    | Mac msg =>
      refine ⟨⟨MegolmError.Mac msg, rfl, msg, rfl⟩, ?_, ?_⟩ <;>
        simp [DecryptionError.tag]

/-- Witness for the amended claim C3, at a concrete MAC failure value. -/
theorem decryptionError_mac_witness :
    DecryptionError.isMacFailure (DecryptionError.Megolm sampleMacFault) =
      true ∧
    ((∃ m, DecryptionError.Megolm sampleMacFault = DecryptionError.Megolm m ∧
        ∃ msg, m = MegolmError.Mac msg) ∧
      DecryptionError.tag (DecryptionError.Megolm sampleMacFault) ≠
        DecryptionErrorTag.serializationTag ∧
      DecryptionError.tag (DecryptionError.Megolm sampleMacFault) ≠
        DecryptionErrorTag.identifierTag) :=
  ⟨rfl, decryptionError_mac_surfaced_as_megolm
    (DecryptionError.Megolm sampleMacFault) rfl⟩

/-- Claim C4: the closed set of causes of `MachineCreationError` is exactly
two — malformed identifier at setup, or the store cannot be
opened/initialized; every value is one of these two variants and no other. -/
theorem machineCreationError_two_causes :
    ∀ e : MachineCreationError,
      (∃ x, e = MachineCreationError.Identifier x) ∨
      (∃ x, e = MachineCreationError.CryptoStore x) := by
  intro e
  cases e with
  | Identifier x => exact Or.inl ⟨x, rfl⟩
  | CryptoStore x => exact Or.inr ⟨x, rfl⟩

/-- Claim C5: the closed set of causes of `KeyImportError` is exactly two —
the export blob fails passphrase/format validation, or the store write fails
during merge; every value is one of these two variants and no other. -/
theorem keyImportError_two_causes :
    ∀ e : KeyImportError,
      (∃ x, e = KeyImportError.Export x) ∨
      (∃ x, e = KeyImportError.CryptoStore x) := by
  intro e
  cases e with
  | Export x => exact Or.inl ⟨x, rfl⟩
  | CryptoStore x => exact Or.inr ⟨x, rfl⟩

/-- Claim C6: each of the eleven variants of the four error enumerations
forwards an error produced by a collaborator component — for each variant the
automatic `#[from]` conversion from the wrapped external error type yields
exactly that variant holding the inner error unchanged. -/
theorem error_variants_forward_inner :
    (∀ x, MachineCreationError.fromRumaIdentifierError x =
      MachineCreationError.Identifier x) ∧
    (∀ x, MachineCreationError.fromInnerStoreError x =
      MachineCreationError.CryptoStore x) ∧
    (∀ x, KeyImportError.fromKeyExportError x = KeyImportError.Export x) ∧
    (∀ x, KeyImportError.fromInnerStoreError x =
      KeyImportError.CryptoStore x) ∧
    (∀ x, CryptoStoreError.fromInnerStoreError x =
      CryptoStoreError.CryptoStore x) ∧
    (∀ x, CryptoStoreError.fromOlmError x = CryptoStoreError.OlmError x) ∧
    (∀ x, CryptoStoreError.fromSerdeJsonError x =
      CryptoStoreError.Serialization x) ∧
    (∀ x, CryptoStoreError.fromRumaIdentifierError x =
      CryptoStoreError.Identifier x) ∧
    (∀ x, DecryptionError.fromSerdeJsonError x =
      DecryptionError.Serialization x) ∧
    (∀ x, DecryptionError.fromRumaIdentifierError x =
      DecryptionError.Identifier x) ∧
    (∀ x, DecryptionError.fromMegolmError x = DecryptionError.Megolm x) :=
  ⟨fun _ => rfl, fun _ => rfl, fun _ => rfl, fun _ => rfl, fun _ => rfl,
   fun _ => rfl, fun _ => rfl, fun _ => rfl, fun _ => rfl, fun _ => rfl,
   fun _ => rfl⟩

/-- Claim C8: for every inner error value and each of the four SDK error
kinds, the Display rendering of the SDK error constructed from that inner
error equals the Display rendering of the inner error itself — the
`#[error(transparent)]` wrapping adds no message text of its own. -/
theorem error_display_transparent :
    (∀ x, (MachineCreationError.fromRumaIdentifierError x).display =
      x.display) ∧
    (∀ x, (MachineCreationError.fromInnerStoreError x).display =
      x.display) ∧
    (∀ x, (KeyImportError.fromKeyExportError x).display = x.display) ∧
    (∀ x, (KeyImportError.fromInnerStoreError x).display = x.display) ∧
    (∀ x, (CryptoStoreError.fromInnerStoreError x).display = x.display) ∧
    (∀ x, (CryptoStoreError.fromOlmError x).display = x.display) ∧
    (∀ x, (CryptoStoreError.fromSerdeJsonError x).display = x.display) ∧
    (∀ x, (CryptoStoreError.fromRumaIdentifierError x).display =
      x.display) ∧
    (∀ x, (DecryptionError.fromSerdeJsonError x).display = x.display) ∧
    (∀ x, (DecryptionError.fromRumaIdentifierError x).display = x.display) ∧
    (∀ x, (DecryptionError.fromMegolmError x).display = x.display) :=
  ⟨fun _ => rfl, fun _ => rfl, fun _ => rfl, fun _ => rfl, fun _ => rfl,
   fun _ => rfl, fun _ => rfl, fun _ => rfl, fun _ => rfl, fun _ => rfl,
   fun _ => rfl⟩

/-- Claim C9: the inner crypto-store error type converts automatically into
exactly three of the four SDK error kinds — `MachineCreationError`,
`KeyImportError` and `CryptoStoreError`, each time as that kind's
`CryptoStore` variant — and never into `DecryptionError`. -/
theorem innerStoreError_three_target_kinds :
    ExtErrorTy.innerStore ∈ machineCreationFromSources ∧
    ExtErrorTy.innerStore ∈ keyImportFromSources ∧
    ExtErrorTy.innerStore ∈ cryptoStoreFromSources ∧
    ExtErrorTy.innerStore ∉ decryptionFromSources ∧
    (∀ x : InnerStoreError,
      MachineCreationError.fromInnerStoreError x =
        MachineCreationError.CryptoStore x ∧
      KeyImportError.fromInnerStoreError x = KeyImportError.CryptoStore x ∧
      CryptoStoreError.fromInnerStoreError x =
        CryptoStoreError.CryptoStore x) :=
  ⟨by decide, by decide, by decide, by decide,
   fun _ => ⟨rfl, rfl, rfl⟩⟩

/-- Claim C10: the identifier-parsing error type converts automatically into
`MachineCreationError`, `CryptoStoreError` and `DecryptionError` (each time
as that kind's `Identifier` variant), but not into `KeyImportError` — a
malformed identifier is not a representable `KeyImportError` cause. -/
theorem rumaIdentifierError_three_target_kinds :
    ExtErrorTy.rumaIdentifier ∈ machineCreationFromSources ∧
    ExtErrorTy.rumaIdentifier ∈ cryptoStoreFromSources ∧
    ExtErrorTy.rumaIdentifier ∈ decryptionFromSources ∧
    ExtErrorTy.rumaIdentifier ∉ keyImportFromSources ∧
    (∀ x : RumaIdentifierError,
      MachineCreationError.fromRumaIdentifierError x =
        MachineCreationError.Identifier x ∧
      CryptoStoreError.fromRumaIdentifierError x =
        CryptoStoreError.Identifier x ∧
      DecryptionError.fromRumaIdentifierError x =
        DecryptionError.Identifier x) :=
  ⟨by decide, by decide, by decide, by decide,
   fun _ => ⟨rfl, rfl, rfl⟩⟩
